import Mathlib

/-!
Verification of the DormManagement contract router and pagination schema.

The development shallowly embeds two Python modules:

* `routers/contract.py` — a FastAPI router exposing five CRUD endpoints
  over the path base `/contracts`, each delegating to the data-access
  module `crud.contract` through a scoped database session (`get_db`).
* `schemas/helper.py` — the generic pydantic model `PaginatedResponse`
  with fields `items`, `total`, `page`, `size`, `pages` and no validator.

The data-access module `crud/contract.py` itself is not part of the
visible sources; its five functions are modelled from the spec in the
namespace `crud_contract` below.
-/

/-! ## Data model

`schemas/contract.py` is not visible; the spec treats contract fields
beyond identity as opaque and shows the example payload
`{name: "Acme MSA"}`.  We model the creation payload with a single
`name` field and the output shape as that payload plus the generated
integer id.  Python integers are unbounded, hence `Int`. -/

/-- Modelled from the spec: the `ContractCreate` request schema
(`schemas.contract.ContractCreate`); fields beyond the example `name`
are unspecified in the visible fragment. -/
structure ContractCreate where
  name : String
deriving DecidableEq, Repr

/-- Modelled from the spec: the `ContractOut` response schema — the
persisted record shape: generated integer id plus the payload fields. -/
structure ContractOut where
  id : Int
  name : String
deriving DecidableEq, Repr

/-- Modelled from the spec: the database owns the record state.  The
state is the ordered list of persisted contract rows together with the
next auto-generated primary key. -/
structure DB where
  records : List ContractOut
  nextId : Int
deriving DecidableEq, Repr

/-- Well-formed database state: every persisted id is below the id
generator, and persisted ids are pairwise distinct (primary keys). -/
def DB.wf (db : DB) : Prop :=
  (∀ r ∈ db.records, r.id < db.nextId) ∧ (db.records.map (·.id)).Nodup

instance (db : DB) : Decidable db.wf := by
  unfold DB.wf; infer_instance

namespace crud_contract

/-- Modelled from the spec: `crud.contract.create_contract` — persists a
new record with a generated id and returns it. -/
def create_contract (db : DB) (contract : ContractCreate) : ContractOut × DB :=
  let row : ContractOut := { id := db.nextId, name := contract.name }
  (row, { records := db.records ++ [row], nextId := db.nextId + 1 })

/-- Modelled from the spec: `crud.contract.get_contract_by_id` — looks a
record up by id; `none` is the not-found condition (the spec leaves
raise-vs-null open, we model failure as `none`). -/
def get_contract_by_id (db : DB) (contract_id : Int) : Option ContractOut :=
  db.records.find? (fun r => r.id == contract_id)

/-- Modelled from the spec: `crud.contract.update_contract` — full
replace: all payload fields of the addressed record are overwritten with
the supplied payload, the id is kept; not-found is `none`. -/
def update_contract (db : DB) (contract_id : Int) (contract : ContractCreate) :
    Option ContractOut × DB :=
  match db.records.find? (fun r => r.id == contract_id) with
  | none => (none, db)
  | some _ =>
    let updated : ContractOut := { id := contract_id, name := contract.name }
    (some updated,
     { db with records := db.records.map (fun r => if r.id == contract_id then updated else r) })

/-- Modelled from the spec: `crud.contract.delete_contract` — removes
the addressed record and returns the deleted entity snapshot; not-found
is `none`. -/
def delete_contract (db : DB) (contract_id : Int) : Option ContractOut × DB :=
  match db.records.find? (fun r => r.id == contract_id) with
  | none => (none, db)
  | some row =>
    (some row, { db with records := db.records.filter (fun r => !(r.id == contract_id)) })

/-- Modelled from the spec: `crud.contract.get_contracts` — the full
unpaginated list of persisted records. -/
def get_contracts (db : DB) : List ContractOut :=
  db.records

end crud_contract

/-! ## Session scoping (`get_db`)

`get_db` is a generator dependency: `db = SessionLocal()`, `try: yield
db` (the request handler runs here and may raise), `finally: db.close()`.
We embed the handler body's result as an `Outcome` — normal return or a
raised exception — and `get_db`'s try/finally around it. -/

/-- Result of running a request handler body: a normal return value or a
raised exception. -/
inductive Outcome (α : Type) where
  | ok (val : α)
  | raised
deriving DecidableEq, Repr

/-- A database session; we track the one observable fact `get_db`
manages: whether the session has been closed. -/
structure Session where
  closed : Bool
deriving DecidableEq, Repr

/-- `SessionLocal()` — the session factory yields a fresh, open session. -/
def SessionLocal : Session :=
  { closed := false }

/-- `db.close()`. -/
def Session.close (s : Session) : Session :=
  { s with closed := true }

/-- `get_db` wrapped around one request: acquire a session from the
factory, run the handler body on it (`try: yield db` — the body may
return normally or raise), then `finally: db.close()` on either path.
The final session state is returned alongside the handler outcome. -/
def get_db_run {α : Type} (handler : Session → Outcome α) : Outcome α × Session :=
  let db := SessionLocal
  let result := handler db
  (result, db.close)

/-! ## Router handlers (`routers/contract.py`)

Each handler returns exactly what the corresponding `crud_contract`
function returns, with the session/state threaded through; parameter
order follows the Python signatures. -/

/-- `POST /` handler: `return crud_contract.create_contract(db, contract)`. -/
def create_contract (contract : ContractCreate) (db : DB) : ContractOut × DB :=
  crud_contract.create_contract db contract

/-- `GET /{contract_id}` handler:
`return crud_contract.get_contract_by_id(db, contract_id)`. -/
def get_contract_by_id (contract_id : Int) (db : DB) : Option ContractOut :=
  crud_contract.get_contract_by_id db contract_id

/-- `PUT /{contract_id}` handler:
`return crud_contract.update_contract(db, contract_id, contract)`. -/
def update_contract (contract_id : Int) (contract : ContractCreate) (db : DB) :
    Option ContractOut × DB :=
  crud_contract.update_contract db contract_id contract

/-- `DELETE /{contract_id}` handler:
`return crud_contract.delete_contract(db, contract_id)`. -/
def delete_contract (contract_id : Int) (db : DB) : Option ContractOut × DB :=
  crud_contract.delete_contract db contract_id

/-- `GET /` handler: `return crud_contract.get_contracts(db)`. -/
def read_contracts (db : DB) : List ContractOut :=
  crud_contract.get_contracts db

/-! ## Route declarations -/

/-- HTTP method of a route decorator. -/
inductive Method where
  | get | post | put | delete
deriving DecidableEq, Repr

/-- The `response_model=` argument of a route decorator. -/
inductive RespModel where
  | contractOut
  | listContractOut
deriving DecidableEq, Repr

/-- The handler attached to a route; the constructor records the
handler's signature shape (integer path parameter, `ContractCreate`
body) through the function's type. -/
inductive RouteHandler where
  | create (h : ContractCreate → DB → ContractOut × DB)
  | readOne (h : Int → DB → Option ContractOut)
  | updateOne (h : Int → ContractCreate → DB → Option ContractOut × DB)
  | removeOne (h : Int → DB → Option ContractOut × DB)
  | listAll (h : DB → List ContractOut)

/-- One route declaration: method, path pattern, response model,
handler. -/
structure Route where
  method : Method
  path : String
  responseModel : RespModel
  handler : RouteHandler

/-- `APIRouter(prefix=..., tags=...)` together with the routes its
decorators register, in source order. -/
structure APIRouter where
  basePath : String
  tags : List String
  routes : List Route

/-- The contract router: `APIRouter(prefix="/contracts",
tags=["contracts"])` with the five decorated operations of
`routers/contract.py` in source order. -/
def router : APIRouter :=
  { basePath := "/contracts"
    tags := ["contracts"]
    routes :=
      [ { method := .post, path := "/", responseModel := .contractOut,
          handler := .create create_contract },
        { method := .get, path := "/{contract_id}", responseModel := .contractOut,
          handler := .readOne get_contract_by_id },
        { method := .put, path := "/{contract_id}", responseModel := .contractOut,
          handler := .updateOne update_contract },
        { method := .delete, path := "/{contract_id}", responseModel := .contractOut,
          handler := .removeOne delete_contract },
        { method := .get, path := "/", responseModel := .listContractOut,
          handler := .listAll read_contracts } ] }

/-! ## Pagination schema (`schemas/helper.py`)

`PaginatedResponse(BaseModel, Generic[T])` declares five plain fields
and no validator; construction stores the well-typed arguments as
given. -/

/-- The generic pagination envelope of `schemas/helper.py`: plain fields
`items`, `total`, `page`, `size`, `pages`, no cross-field validation. -/
structure PaginatedResponse (T : Type) where
  items : List T
  total : Int
  page : Int
  size : Int
  pages : Int

/-- `ceil(total / size)` for a positive `size`, as integer arithmetic:
`(total + size - 1) / size`. -/
def ceilDiv (total size : Int) : Int :=
  (total + size - 1) / size

/-! ## Helper lemmas on `find?` over record lists -/

/-- After replacing every record whose id matches `cid` by `upd` (with
`upd.id = cid`), looking the id up finds `upd`, provided some record
matched before. -/
theorem find?_map_replace (l : List ContractOut) (cid : Int) (upd : ContractOut)
    (hid : upd.id = cid)
    (hmem : (l.find? (fun r => r.id == cid)).isSome) :
    (l.map (fun r => if r.id == cid then upd else r)).find? (fun r => r.id == cid)
      = some upd := by
  induction l with
  | nil => simp at hmem
  | cons a l ih =>
    rw [List.map_cons]
    by_cases ha : a.id = cid
    · rw [if_pos (by simp [ha]), List.find?_cons_of_pos _ (by simp [hid])]
    · rw [List.find?_cons_of_neg _ (by simp [ha])] at hmem
      rw [if_neg (by simp [ha]), List.find?_cons_of_neg _ (by simp [ha])]
      exact ih hmem

/-- Replacing records whose id matches `cid` by `upd` (with
`upd.id = cid`) does not change the lookup of any other id `j`. -/
theorem find?_map_replace_frame (l : List ContractOut) (cid j : Int) (upd : ContractOut)
    (hid : upd.id = cid) (hne : j ≠ cid) :
    (l.map (fun r => if r.id == cid then upd else r)).find? (fun r => r.id == j)
      = l.find? (fun r => r.id == j) := by
  induction l with
  | nil => rfl
  | cons a l ih =>
    rw [List.map_cons]
    by_cases ha : a.id = cid
    · rw [if_pos (by simp [ha]),
        List.find?_cons_of_neg _ (by simp [hid]; omega),
        List.find?_cons_of_neg _ (by simp [ha]; omega)]
      exact ih
    · rw [if_neg (by simp [ha])]
      by_cases haj : a.id = j
      · rw [List.find?_cons_of_pos _ (by simp [haj]),
          List.find?_cons_of_pos _ (by simp [haj])]
      · rw [List.find?_cons_of_neg _ (by simp [haj]),
          List.find?_cons_of_neg _ (by simp [haj])]
        exact ih

/-- After filtering out every record whose id matches `cid`, looking
`cid` up fails. -/
theorem find?_filter_ne_none (l : List ContractOut) (cid : Int) :
    (l.filter (fun r => !(r.id == cid))).find? (fun r => r.id == cid) = none := by
  rw [List.find?_eq_none]
  intro x hx
  have hmem := (List.mem_filter.mp hx).2
  simp at hmem ⊢
  exact hmem

/-! ## Claim theorems -/

/-- C1: the Contract Router declares exactly five HTTP operations under
path base `/contracts` — POST `/` (ContractCreate body, ContractOut
response), GET `/{contract_id}` (integer path param, ContractOut), PUT
`/{contract_id}` (integer path param plus ContractCreate body,
ContractOut), DELETE `/{contract_id}` (integer path param, ContractOut),
GET `/` (no params, list of ContractOut) — and every operation delegates
to the corresponding `crud_contract` data-access function. -/
theorem contract_router_five_operations :
    router.basePath = "/contracts" ∧
    router.routes.length = 5 ∧
    router.routes.map (fun r => (r.method, r.path, r.responseModel)) =
      [(Method.post, "/", RespModel.contractOut),
       (Method.get, "/{contract_id}", RespModel.contractOut),
       (Method.put, "/{contract_id}", RespModel.contractOut),
       (Method.delete, "/{contract_id}", RespModel.contractOut),
       (Method.get, "/", RespModel.listContractOut)] ∧
    router.routes.map (fun r => r.handler) =
      [RouteHandler.create create_contract,
       RouteHandler.readOne get_contract_by_id,
       RouteHandler.updateOne update_contract,
       RouteHandler.removeOne delete_contract,
       RouteHandler.listAll read_contracts] ∧
    (∀ db c, create_contract c db = crud_contract.create_contract db c) ∧
    (∀ db i, get_contract_by_id i db = crud_contract.get_contract_by_id db i) ∧
    (∀ db i c, update_contract i c db = crud_contract.update_contract db i c) ∧
    (∀ db i, delete_contract i db = crud_contract.delete_contract db i) ∧
    (∀ db, read_contracts db = crud_contract.get_contracts db) := by
  refine ⟨rfl, rfl, rfl, rfl, ?_, ?_, ?_, ?_, ?_⟩ <;> intros <;> rfl

/-- C2: for every request handler body — whether it returns normally or
raises — running it under the `get_db` scope leaves the session closed:
the `finally` clause closes the session on every exit path. -/
theorem get_db_session_always_closed {α : Type} (handler : Session → Outcome α) :
    ((get_db_run handler).2).closed = true :=
  rfl

/-- C3: every route handler is a pure pass-through — for every session
state and every argument it returns exactly the value of the
corresponding data-access function, including the not-found failures
(`none` results) of read-one, update and delete, unmodified. -/
theorem handlers_pass_through (db : DB) (contract : ContractCreate) (contract_id : Int) :
    create_contract contract db = crud_contract.create_contract db contract ∧
    get_contract_by_id contract_id db = crud_contract.get_contract_by_id db contract_id ∧
    update_contract contract_id contract db
      = crud_contract.update_contract db contract_id contract ∧
    delete_contract contract_id db = crud_contract.delete_contract db contract_id ∧
    read_contracts db = crud_contract.get_contracts db :=
  ⟨rfl, rfl, rfl, rfl, rfl⟩

/-- C4 (counterexample): the schema does not force
`pages = ceil(total / size)` — a `PaginatedResponse` with `size = 10 > 0`,
`total = 25` and `pages = 7` is a value of the type, so the invariant
fails as a statement about every value. -/
theorem pages_invariant_counterexample :
    ¬ (∀ (p : PaginatedResponse Nat), 0 < p.size → p.pages = ceilDiv p.total p.size) :=
  fun h =>
    absurd (h { items := [], total := 25, page := 1, size := 10, pages := 7 } (by decide))
      (by decide)

/-- C4 (amended): `pages = ceil(total / size)` is not enforced by the
schema; for every `PaginatedResponse` whose `pages` field was supplied
as `ceil(total / size)`, the relation holds by construction — in
particular such a value with `total = 25` and `size = 10` has
`pages = 3`. -/
theorem pages_eq_ceil_under_relation {T : Type} (p : PaginatedResponse T)
    (hrel : p.pages = ceilDiv p.total p.size) (ht : p.total = 25) (hs : p.size = 10) :
    p.pages = 3 := by
  rw [hrel, ht, hs]
  decide

/-- Witness for the amended C4 at a concrete value. -/
theorem pages_eq_ceil_under_relation_witness :
    ({ items := [], total := 25, page := 1, size := 10, pages := 3 } :
      PaginatedResponse Nat).pages = 3 :=
  pages_eq_ceil_under_relation
    { items := [], total := 25, page := 1, size := 10, pages := 3 } (by decide) rfl rfl

/-- C5 (counterexample): the schema does not force
`len(items) ≤ size` — a `PaginatedResponse` carrying two items with
`size = 1` is a value of the type. -/
theorem items_le_size_counterexample :
    ¬ (∀ (p : PaginatedResponse Nat), (p.items.length : Int) ≤ p.size) :=
  fun h =>
    absurd (h { items := [0, 1], total := 2, page := 1, size := 1, pages := 2 }) (by decide)

/-- C5 (amended): `len(items) ≤ size` is not an invariant the schema
enforces — construction stores `items` and `size` exactly as given, so
the bound holds of a value precisely when it holds of the arguments
supplied at construction. -/
theorem items_le_size_iff_supplied {T : Type} (its : List T) (t pg sz ps : Int) :
    ((PaginatedResponse.mk its t pg sz ps).items.length : Int)
        ≤ (PaginatedResponse.mk its t pg sz ps).size
      ↔ (its.length : Int) ≤ sz :=
  Iff.rfl

/-- C6: POST `/contracts/` followed by GET `/contracts/{id}` with the id
the POST returned yields exactly the record the POST returned, for every
well-formed database state and every payload. -/
theorem post_then_get_roundtrip (db : DB) (contract : ContractCreate) (hwf : db.wf) :
    get_contract_by_id (create_contract contract db).1.id (create_contract contract db).2
      = some (create_contract contract db).1 := by
  show (db.records ++ [({ id := db.nextId, name := contract.name } : ContractOut)]).find?
      (fun r => r.id == db.nextId) = some { id := db.nextId, name := contract.name }
  rw [List.find?_append]
  have hnone : db.records.find? (fun r => r.id == db.nextId) = none := by
    rw [List.find?_eq_none]
    intro x hx
    have hlt := hwf.1 x hx
    simp
    omega
  rw [hnone, Option.none_or]
  exact List.find?_cons_of_pos _ (by simp)

/-- Witness for C6 on the empty database and the spec's example payload. -/
theorem post_then_get_roundtrip_witness :
    ({ records := [], nextId := 1 } : DB).wf ∧
    get_contract_by_id
        (create_contract { name := "Acme MSA" } { records := [], nextId := 1 }).1.id
        (create_contract { name := "Acme MSA" } { records := [], nextId := 1 }).2
      = some (create_contract { name := "Acme MSA" } { records := [], nextId := 1 }).1 :=
  ⟨by decide,
   post_then_get_roundtrip { records := [], nextId := 1 } { name := "Acme MSA" } (by decide)⟩

/-- C7: for every id present in the database, DELETE `/contracts/{id}`
returns the deleted record's snapshot (exactly the record the lookup
found), and a subsequent GET `/contracts/{id}` on the resulting state
fails with the not-found condition. -/
theorem delete_then_get_not_found (db : DB) (contract_id : Int)
    (hpresent : (get_contract_by_id contract_id db).isSome) :
    (delete_contract contract_id db).1 = get_contract_by_id contract_id db ∧
    (delete_contract contract_id db).1.isSome ∧
    get_contract_by_id contract_id (delete_contract contract_id db).2 = none := by
  unfold get_contract_by_id crud_contract.get_contract_by_id at hpresent ⊢
  unfold delete_contract crud_contract.delete_contract
  cases hfind : db.records.find? (fun r => r.id == contract_id) with
  | none => rw [hfind] at hpresent; simp at hpresent
  | some row =>
    exact ⟨rfl, rfl, find?_filter_ne_none db.records contract_id⟩

/-- Witness for C7 on a one-record database. -/
theorem delete_then_get_not_found_witness :
    (get_contract_by_id 1
        { records := [{ id := 1, name := "Acme MSA" }], nextId := 2 }).isSome ∧
    ((delete_contract 1 { records := [{ id := 1, name := "Acme MSA" }], nextId := 2 }).1
        = get_contract_by_id 1 { records := [{ id := 1, name := "Acme MSA" }], nextId := 2 } ∧
      (delete_contract 1 { records := [{ id := 1, name := "Acme MSA" }], nextId := 2 }).1.isSome ∧
      get_contract_by_id 1
          (delete_contract 1
            { records := [{ id := 1, name := "Acme MSA" }], nextId := 2 }).2
        = none) :=
  ⟨by decide,
   delete_then_get_not_found { records := [{ id := 1, name := "Acme MSA" }], nextId := 2 } 1
     (by decide)⟩

/-- C8: GET `/contracts/` returns the full unpaginated list of persisted
records — exactly the database's record list, so in particular its
length equals the number of persisted records; no paging, filtering or
truncation is applied. -/
theorem list_returns_all_records (db : DB) :
    read_contracts db = db.records ∧ (read_contracts db).length = db.records.length :=
  ⟨rfl, rfl⟩

/-- C9: for every id present in the database, PUT `/contracts/{id}` with
a payload replaces exactly the payload fields of the addressed record
(full-replace semantics), keeps its `id` unchanged, and leaves every
other id's lookup unchanged. -/
theorem put_full_replace_id_unchanged (db : DB) (contract_id : Int) (contract : ContractCreate)
    (hpresent : (get_contract_by_id contract_id db).isSome) :
    (update_contract contract_id contract db).1
        = some { id := contract_id, name := contract.name } ∧
    get_contract_by_id contract_id (update_contract contract_id contract db).2
        = some { id := contract_id, name := contract.name } ∧
    ∀ j, j ≠ contract_id →
      get_contract_by_id j (update_contract contract_id contract db).2
        = get_contract_by_id j db := by
  unfold get_contract_by_id crud_contract.get_contract_by_id at hpresent ⊢
  unfold update_contract crud_contract.update_contract
  cases hfind : db.records.find? (fun r => r.id == contract_id) with
  | none => rw [hfind] at hpresent; simp at hpresent
  | some row =>
    refine ⟨rfl, ?_, ?_⟩
    · exact find?_map_replace db.records contract_id _ rfl hpresent
    · intro j hj
      exact find?_map_replace_frame db.records contract_id j _ rfl hj

/-- Witness for C9 on a one-record database, checking the replaced
record, the unchanged id, and the frame at the absent id 2. -/
theorem put_full_replace_id_unchanged_witness :
    (get_contract_by_id 1
        { records := [{ id := 1, name := "Acme MSA" }], nextId := 2 }).isSome ∧
    (update_contract 1 { name := "Renewed MSA" }
        { records := [{ id := 1, name := "Acme MSA" }], nextId := 2 }).1
      = some { id := 1, name := "Renewed MSA" } ∧
    get_contract_by_id 1
        (update_contract 1 { name := "Renewed MSA" }
          { records := [{ id := 1, name := "Acme MSA" }], nextId := 2 }).2
      = some { id := 1, name := "Renewed MSA" } ∧
    get_contract_by_id 2
        (update_contract 1 { name := "Renewed MSA" }
          { records := [{ id := 1, name := "Acme MSA" }], nextId := 2 }).2
      = get_contract_by_id 2 { records := [{ id := 1, name := "Acme MSA" }], nextId := 2 } := by
  have h := put_full_replace_id_unchanged
    { records := [{ id := 1, name := "Acme MSA" }], nextId := 2 } 1 { name := "Renewed MSA" }
    (by decide)
  exact ⟨by decide, h.1, h.2.1, h.2.2 2 (by decide)⟩

/-- C10: constructing a `PaginatedResponse` performs no cross-field
validation — a value with a non-empty `items` list, `size = 0`, a
negative `page` and an arbitrary `pages` is constructed with every field
stored exactly as given, and a value with positive `size` may carry
`pages` different from `ceil(total / size)`. -/
theorem paginated_construction_stores_fields :
    (let p : PaginatedResponse Nat :=
      { items := [0], total := 25, page := -1, size := 0, pages := 7 }
     p.items = [0] ∧ p.total = 25 ∧ p.page = -1 ∧ p.size = 0 ∧ p.pages = 7 ∧ p.items ≠ []) ∧
    (let q : PaginatedResponse Nat :=
      { items := [], total := 25, page := 1, size := 10, pages := 7 }
     0 < q.size ∧ q.pages ≠ ceilDiv q.total q.size) :=
  ⟨⟨rfl, rfl, rfl, rfl, rfl, by decide⟩, ⟨by decide, by decide⟩⟩
